import Mathlib

/-!
Shallow embedding of the AgGrid Server-Side Row Model SQL query builder of
`widget-examples/ssrm_mode` (`query_builder.py`, the grid-state model of
`models.py`, and the aggregation whitelist of `config.py`), together with
theorems checking the specified behaviour of each clause builder.

Conventions of the embedding:

* Python `Optional[int]` fields become `Option Int`; an explicit JSON `null`
  is `none`, and Python `str(None)` renders as the text `None`.
* The dynamically typed payload dictionaries (`rowGroupCols` / `valueCols`
  entries, `sortModel` entries, `filterModel` entries) are modelled by
  structures holding exactly the keys the code reads; a missing key is
  `none`, and `dict.get(k, d)` is `Option.getD`.  Truthiness of such a
  dictionary ("if not group_col") is "some represented key is present".
* Dynamic scalar values (`groupKeys` entries, set-filter values) are the sum
  type `PyVal`; `pyStr` is Python `str()`.  The `filter` / `filterTo` values
  of a filter descriptor are modelled by the typed field that the filter
  kind reading them expects (`filterS` for text filters, `filterN` and
  `filterToN` for number filters, `values` for set filters).
* The Python loop `for index, key in enumerate(groupKeys)` guarded by
  `index < len(rowGroupCols)` pairs each group key with the group column at
  the same index, truncated to the shorter list: exactly `List.zipWith`.
* Python `s.replace` of a single quote by a doubled one is `doubleChar` on
  the character list of the string.
-/

/-- A dynamically typed scalar value from the JSON payload. -/
inductive PyVal where
  | vNone : PyVal
  | vStr : String → PyVal
  | vInt : Int → PyVal
deriving Repr, DecidableEq

/-- Python `str()` on a `PyVal`. -/
def pyStr : PyVal → String
  | .vNone => "None"
  | .vStr s => s
  | .vInt n => toString n

/-- Double every occurrence of the character `q` in a character list. -/
def doubleChar (q : Char) : List Char → List Char
  | [] => []
  | c :: cs => if c = q then c :: c :: doubleChar q cs else c :: doubleChar q cs

/-- Python `value.replace("'", "''")`: double every single quote. -/
def escape_single_quotes (s : String) : String := ⟨doubleChar '\'' s.data⟩

/-- Python `s.strip()`: drop leading and trailing whitespace. -/
def pyStrip (s : String) : String :=
  ⟨((s.data.dropWhile Char.isWhitespace).reverse.dropWhile Char.isWhitespace).reverse⟩

/-- Python `s.lower()` (ASCII case folding, all the code compares is the
keyword `select`). -/
def pyLower (s : String) : String := ⟨s.data.map Char.toLower⟩

/-- Python `s.startswith(prefix_text)`. -/
def pyStartsWith (s prefix_text : String) : Bool :=
  prefix_text.data.isPrefixOf s.data

/-- An entry of `rowGroupCols` or `valueCols`: a payload dictionary of which
the code reads the keys `id`, `field` and `aggFunc`. -/
structure ColDef where
  id : Option String := none
  field : Option String := none
  aggFunc : Option String := none
deriving Repr, DecidableEq

/-- Python truthiness of the column dictionary: non-empty. -/
def colTruthy (c : ColDef) : Bool :=
  c.id.isSome || c.field.isSome || c.aggFunc.isSome

/-- Python `col.get("field", col.get("id", ""))`. -/
def colField (c : ColDef) : String := c.field.getD (c.id.getD "")

/-- Python `col.get("id", col.get("field", ""))`. -/
def colIdFirst (c : ColDef) : String := c.id.getD (c.field.getD "")

/-- An entry of `sortModel`: the code reads the keys `colId` and `sort`. -/
structure SortItem where
  colId : Option String := none
  sort : Option String := none
deriving Repr, DecidableEq

/-- Python `item.get("colId", "")`. -/
def sortColId (i : SortItem) : String := i.colId.getD ""

/-- Python `item.get("sort", "asc").upper()`. -/
def sortDir (i : SortItem) : String := (i.sort.getD "asc").toUpper

/-- A `filterModel` entry: the code reads `filterType`, `type`, `filter`,
`filterTo` and `values`; the dynamic `filter` value is carried by the typed
field matching the filter kind that reads it. -/
structure FilterConfig where
  filterType : Option String := none
  type : Option String := none
  filterS : Option String := none
  filterN : Option Int := none
  filterToN : Option Int := none
  values : Option (List PyVal) := none
deriving Repr, DecidableEq

/-- The `AgGridOptions` pydantic model of `models.py`.  A `rowGroupCols`,
`sortModel`, `filterModel`, `groupKeys` or `valueCols` of `None` behaves
like the empty list at every use site, so those fields are plain lists;
`startRow` and `endRow` keep `Option` because `None == 0` is false. -/
structure AgGridOptions where
  startRow : Option Int := some 0
  endRow : Option Int := some 500
  sortModel : List SortItem := []
  filterModel : List (String × FilterConfig) := []
  groupKeys : List PyVal := []
  rowGroupCols : List ColDef := []
  valueCols : List ColDef := []
deriving Repr, DecidableEq

/-- `AgGridOptions.is_doing_grouping`: true iff `rowGroupCols` is truthy. -/
def is_doing_grouping (o : AgGridOptions) : Bool := !o.rowGroupCols.isEmpty

/-- `AgGridOptions.get_row_group_column`: the column at index
`len(groupKeys)` of `rowGroupCols` when that index is in range, else none. -/
def get_row_group_column (o : AgGridOptions) : Option ColDef :=
  if o.groupKeys.length < o.rowGroupCols.length then
    o.rowGroupCols[o.groupKeys.length]?
  else none

/-- `AgGridOptions.page_size`: `endRow - startRow`, or 100 when either bound
is `None`. -/
def page_size (o : AgGridOptions) : Int :=
  match o.startRow, o.endRow with
  | some s, some e => e - s
  | _, _ => 100

/-- `SUPPORTED_AGG_FUNCTIONS` of `config.py`. -/
def SUPPORTED_AGG_FUNCTIONS : List String := ["sum", "avg", "count", "min", "max"]

/-- The `QueryBuilder` of `query_builder.py`: the `AgRows` payload (base
query and options), the table name and the identifier escape character. -/
structure QueryBuilder where
  query : String
  opts : AgGridOptions
  table_name : String
  escape_char : String := "\""
deriving Repr, DecidableEq

/-- `QueryBuilder.escape_column`: wrap the column name in the escape
character (no doubling of embedded escape characters). -/
def escape_column (qb : QueryBuilder) (column_name : String) : String :=
  qb.escape_char ++ column_name ++ qb.escape_char

/-- The aggregation item of `create_select_sql` built for one `valueCols`
entry: `<aggFunc>(<escaped field>) as <escaped field>`, with an unsupported
`aggFunc` silently replaced by `sum`. -/
def agg_select (qb : QueryBuilder) (value_col : ColDef) : String :=
  let agg_func0 := value_col.aggFunc.getD "sum"
  let agg_func := if SUPPORTED_AGG_FUNCTIONS.contains agg_func0 then agg_func0 else "sum"
  let agg_field := colField value_col
  agg_func ++ "(" ++ escape_column qb agg_field ++ ") as " ++ escape_column qb agg_field

/-- `QueryBuilder.create_select_sql`. -/
def create_select_sql (qb : QueryBuilder) : String :=
  if !(is_doing_grouping qb.opts) then
    if (qb.query != "") && !(pyStartsWith (pyLower (pyStrip qb.query)) "select") then
      "SELECT * FROM " ++ qb.table_name
    else if qb.query != "" then qb.query
    else "SELECT * FROM " ++ qb.table_name
  else
    match get_row_group_column qb.opts with
    | none => "SELECT * FROM " ++ qb.table_name
    | some group_col =>
      if !(colTruthy group_col) then "SELECT * FROM " ++ qb.table_name
      else
        let group_col_id := colIdFirst group_col
        let cols_to_select :=
          escape_column qb group_col_id :: qb.opts.valueCols.map (agg_select qb)
        let cols_to_select :=
          if qb.opts.valueCols.isEmpty then
            cols_to_select ++ ["count(*) as \"count\""]
          else cols_to_select
        "SELECT " ++ String.intercalate ", " cols_to_select ++ " FROM " ++ qb.table_name

/-- The group-key conditions of `create_where_sql`: the loop over
`enumerate(groupKeys)` guarded by `index < len(rowGroupCols)`, pairing each
key with the group column at its index. -/
def group_key_conditions (qb : QueryBuilder) : List String :=
  List.zipWith
    (fun row_group_col key =>
      escape_column qb (colField row_group_col) ++ " = '" ++
        escape_single_quotes (pyStr key) ++ "'")
    qb.opts.rowGroupCols qb.opts.groupKeys

/-- `QueryBuilder._build_text_filter`. -/
def build_text_filter (qb : QueryBuilder) (field_name : String)
    (filter_config : FilterConfig) : Option String :=
  let condition_type := filter_config.type.getD "contains"
  let filter_value := filter_config.filterS.getD ""
  let escaped_field := escape_column qb field_name
  if condition_type == "notBlank" then
    some (escaped_field ++ " IS NOT NULL AND " ++ escaped_field ++ " != ''")
  else if condition_type == "blank" then
    some (escaped_field ++ " IS NULL OR " ++ escaped_field ++ " = ''")
  else if filter_value == "" then
    none
  else
    let escaped_value := escape_single_quotes filter_value
    if condition_type == "contains" then
      some (escaped_field ++ " LIKE '%" ++ escaped_value ++ "%'")
    else if condition_type == "equals" then
      some (escaped_field ++ " = '" ++ escaped_value ++ "'")
    else if condition_type == "startsWith" then
      some (escaped_field ++ " LIKE '" ++ escaped_value ++ "%'")
    else if condition_type == "endsWith" then
      some (escaped_field ++ " LIKE '%" ++ escaped_value ++ "'")
    else if condition_type == "notContains" then
      some (escaped_field ++ " NOT LIKE '%" ++ escaped_value ++ "%'")
    else none

/-- `QueryBuilder._build_number_filter`. -/
def build_number_filter (qb : QueryBuilder) (field_name : String)
    (filter_config : FilterConfig) : Option String :=
  let condition_type := filter_config.type.getD "equals"
  let filter_value := filter_config.filterN.getD 0
  let escaped_field := escape_column qb field_name
  if condition_type == "equals" then
    some (escaped_field ++ " = " ++ toString filter_value)
  else if condition_type == "greaterThan" then
    some (escaped_field ++ " > " ++ toString filter_value)
  else if condition_type == "lessThan" then
    some (escaped_field ++ " < " ++ toString filter_value)
  else if condition_type == "greaterThanOrEqual" then
    some (escaped_field ++ " >= " ++ toString filter_value)
  else if condition_type == "lessThanOrEqual" then
    some (escaped_field ++ " <= " ++ toString filter_value)
  else if condition_type == "inRange" then
    let filter_to := filter_config.filterToN.getD filter_value
    some (escaped_field ++ " BETWEEN " ++ toString filter_value ++ " AND " ++
      toString filter_to)
  else if condition_type == "notBlank" then
    some (escaped_field ++ " IS NOT NULL AND " ++ escaped_field ++ " != 0")
  else if condition_type == "blank" then
    some (escaped_field ++ " IS NULL OR " ++ escaped_field ++ " = 0")
  else none

/-- `QueryBuilder._build_set_filter`. -/
def build_set_filter (qb : QueryBuilder) (field_name : String)
    (filter_config : FilterConfig) : Option String :=
  let values := filter_config.values.getD []
  if values.isEmpty then none
  else
    let escaped_values :=
      String.intercalate "', '" (values.map (fun v => escape_single_quotes (pyStr v)))
    some (escape_column qb field_name ++ " IN ('" ++ escaped_values ++ "')")

/-- The filter-model conditions of `create_where_sql`, dispatched on
`filterType` (default `text`); an unrecognized filter type yields no
clause. -/
def filter_conditions (qb : QueryBuilder) : List String :=
  qb.opts.filterModel.filterMap (fun p =>
    let filter_type := p.2.filterType.getD "text"
    if filter_type == "text" then build_text_filter qb p.1 p.2
    else if filter_type == "number" then build_number_filter qb p.1 p.2
    else if filter_type == "set" then build_set_filter qb p.1 p.2
    else none)

/-- `QueryBuilder.create_where_sql`. -/
def create_where_sql (qb : QueryBuilder) : String :=
  let where_parts := group_key_conditions qb ++ filter_conditions qb
  if where_parts.isEmpty then ""
  else " WHERE " ++ String.intercalate " AND " where_parts

/-- `QueryBuilder.create_group_by_sql`. -/
def create_group_by_sql (qb : QueryBuilder) : String :=
  if !(is_doing_grouping qb.opts) then ""
  else
    match get_row_group_column qb.opts with
    | none => ""
    | some group_col =>
      if !(colTruthy group_col) then ""
      else " GROUP BY " ++ escape_column qb (colIdFirst group_col)

/-- The `allowed_sort_cols` set of `create_order_by_sql`: ids of the group
columns already applied or currently applying plus the value-column
aggregation targets (membership only, so a list models the Python set). -/
def allowed_sort_cols (o : AgGridOptions) : List String :=
  (o.rowGroupCols.take (o.groupKeys.length + 1)).map colIdFirst ++
    o.valueCols.map colField

/-- `QueryBuilder.create_order_by_sql`. -/
def create_order_by_sql (qb : QueryBuilder) : String :=
  if qb.opts.sortModel.isEmpty then ""
  else
    let sort_parts :=
      if is_doing_grouping qb.opts then
        qb.opts.sortModel.filterMap (fun item =>
          let col_id := sortColId item
          if (allowed_sort_cols qb.opts).contains col_id then
            some (escape_column qb col_id ++ " " ++ sortDir item)
          else none)
      else
        qb.opts.sortModel.map (fun item =>
          escape_column qb (sortColId item) ++ " " ++ sortDir item)
    if sort_parts.isEmpty then ""
    else " ORDER BY " ++ String.intercalate ", " sort_parts

/-- Python `x == 0` on an `Optional[int]`: false for `None`. -/
def pyIntEqZero : Option Int → Bool
  | some n => n == 0
  | none => false

/-- Python `f-string` rendering of an `Optional[int]`: `str(None)` is the
text `None`. -/
def pyOptIntStr : Option Int → String
  | some n => toString n
  | none => "None"

/-- `QueryBuilder.create_limit_sql`. -/
def create_limit_sql (qb : QueryBuilder) : String :=
  if pyIntEqZero qb.opts.startRow && pyIntEqZero qb.opts.endRow then ""
  else " LIMIT " ++ toString (page_size qb.opts) ++ " OFFSET " ++
    pyOptIntStr qb.opts.startRow

/-- `QueryBuilder.build_query`: the five clauses concatenated in fixed
order, then stripped. -/
def build_query (qb : QueryBuilder) : String :=
  pyStrip (create_select_sql qb ++ create_where_sql qb ++ create_group_by_sql qb ++
    create_order_by_sql qb ++ create_limit_sql qb)

/-- `QueryBuilder.build_count_query`. -/
def build_count_query (qb : QueryBuilder) : String :=
  if is_doing_grouping qb.opts then
    match get_row_group_column qb.opts with
    | some group_col =>
      if colTruthy group_col then
        "SELECT COUNT(DISTINCT " ++ escape_column qb (colIdFirst group_col) ++
          ") FROM " ++ qb.table_name ++ create_where_sql qb
      else "SELECT COUNT(*) FROM " ++ qb.table_name ++ create_where_sql qb
    | none => "SELECT COUNT(*) FROM " ++ qb.table_name ++ create_where_sql qb
  else "SELECT COUNT(*) FROM " ++ qb.table_name ++ create_where_sql qb

/-- Modelled from the spec: standard SQL lexing of the body of a quoted
token (an identifier delimited by the configured quote character, or a
string literal delimited by single quotes), where a doubled quote character
inside the token stands for one literal quote character and a lone quote
character ends the token.  Returns the token's decoded body and the
remaining text after the closing quote; `none` when the token never
closes. -/
def readQuotedAux (q : Char) : List Char → Option (List Char × List Char)
  | [] => none
  | c :: rest =>
    if c = q then
      match rest with
      | [] => some ([], [])
      | c2 :: rest2 =>
        if c2 = q then (readQuotedAux q rest2).map (fun p => (q :: p.1, p.2))
        else some ([], rest)
    else (readQuotedAux q rest).map (fun p => (c :: p.1, p.2))

/-- Modelled from the spec: read one complete quoted token (opening quote,
body with doubled-quote escapes, closing quote) from the front of the
text. -/
def readQuoted (q : Char) (s : List Char) : Option (List Char × List Char) :=
  match s with
  | [] => none
  | c :: rest => if c = q then readQuotedAux q rest else none

/-- Drop an exact expected character sequence from the front of a text,
failing when the text does not start with it. -/
def dropExact : List Char → List Char → Option (List Char)
  | [], l => some l
  | _ :: _, [] => none
  | p :: ps, c :: cs => if c = p then dropExact ps cs else none

/-- Modelled from the spec: the emitted pagination clause is syntactically
valid SQL only when it has the shape ` LIMIT <integer> OFFSET <integer>`
with non-empty decimal digit literals. -/
def isValidLimitOffset (s : String) : Bool :=
  match dropExact " LIMIT ".data s.data with
  | none => false
  | some rest =>
    let num1 := rest.takeWhile Char.isDigit
    let rest1 := rest.dropWhile Char.isDigit
    if num1.isEmpty then false
    else
      match dropExact " OFFSET ".data rest1 with
      | none => false
      | some rest2 => !rest2.isEmpty && rest2.all Char.isDigit

/-- A grouped request drilled to leaf level: one group column, one group
key.  `is_doing_grouping` is true but `get_row_group_column` is `none`. -/
def qbLeafGrouped : QueryBuilder :=
  { query := "", table_name := "demo_data",
    opts := { rowGroupCols := [{ id := some "sector" }],
              groupKeys := [PyVal.vStr "Technology"] } }

/-- A builder with default options, used for concrete column-escaping
checks. -/
def qbPlain : QueryBuilder :=
  { query := "", table_name := "demo_data", opts := {} }

/-- The pagination scenario `startRow=100, endRow=150`. -/
def qbPagination : QueryBuilder :=
  { query := "", table_name := "demo_data",
    opts := { startRow := some 100, endRow := some 150 } }

/-- The sort-whitelist scenario: a grouped request with one value column
and a sort entry naming an unrelated column. -/
def qbSortWhitelist : QueryBuilder :=
  { query := "", table_name := "demo_data",
    opts := { rowGroupCols := [{ id := some "sector" }],
              valueCols := [{ field := some "revenue", aggFunc := some "sum" }],
              sortModel := [{ colId := some "unrelated_col", sort := some "asc" }] } }

/-- The injection scenario: a text `equals` filter whose value contains a
single quote. -/
def qbOBrien : QueryBuilder :=
  { query := "", table_name := "demo_data",
    opts := { filterModel := [("name",
      { filterType := some "text", type := some "equals",
        filterS := some "O'Brien" })] } }

/-- The text-filter scenario: `contains` with value `Corp` on column
`name`. -/
def qbCorp : QueryBuilder :=
  { query := "", table_name := "demo_data",
    opts := { filterModel := [("name",
      { filterType := some "text", type := some "contains",
        filterS := some "Corp" })] } }

/-- The number-filter scenario: `inRange` 10..20 on column `price`. -/
def qbPriceRange : QueryBuilder :=
  { query := "", table_name := "demo_data",
    opts := { filterModel := [("price",
      { filterType := some "number", type := some "inRange",
        filterN := some 10, filterToN := some 20 })] } }

/-- A grouped request whose single value column carries the unsupported
aggregation function `median`. -/
def qbAggMedian : QueryBuilder :=
  { query := "", table_name := "demo_data",
    opts := { rowGroupCols := [{ id := some "sector" }],
              valueCols := [{ field := some "revenue", aggFunc := some "median" }] } }

/-- A request whose `groupKeys` is strictly longer than `rowGroupCols`. -/
def qbDrillPast : QueryBuilder :=
  { query := "", table_name := "demo_data",
    opts := { rowGroupCols := [{ id := some "sector" }],
              groupKeys := [PyVal.vStr "Tech", PyVal.vStr "extra"] } }

/-- A request whose `startRow` is an explicit `null`. -/
def qbNoneStart : QueryBuilder :=
  { query := "", table_name := "demo_data",
    opts := { startRow := none, endRow := some 150 } }

theorem string_data_append (a b : String) : (a ++ b).data = a.data ++ b.data := rfl

/-- Decoding with the doubled-quote convention inverts `doubleChar`:
reading the body of a quoted token whose quote characters were doubled
recovers the original text exactly and consumes the closing quote. -/
theorem readQuotedAux_doubleChar (q : Char) (l : List Char) :
    readQuotedAux q (doubleChar q l ++ [q]) = some (l, []) := by
  induction l with
  | nil => simp [doubleChar, readQuotedAux]
  | cons c cs ih =>
    by_cases h : c = q
    · subst h
      rw [doubleChar]
      simp only [if_pos rfl, List.cons_append]
      rw [readQuotedAux.eq_def]
      simp [ih]
    · rw [doubleChar]
      simp only [if_neg h, List.cons_append]
      rw [readQuotedAux.eq_def]
      simp [h, ih]

/-- A token body free of the quote character is read back unchanged. -/
theorem readQuotedAux_no_quote (q : Char) (l : List Char)
    (h : ∀ c ∈ l, c ≠ q) :
    readQuotedAux q (l ++ [q]) = some (l, []) := by
  induction l with
  | nil => simp [readQuotedAux]
  | cons c cs ih =>
    have hc : c ≠ q := h c (List.mem_cons_self c cs)
    have ih2 := ih (fun x hx => h x (List.mem_cons_of_mem c hx))
    rw [List.cons_append, readQuotedAux.eq_def]
    simp [hc, ih2]

/-- Zipping ignores the tail of the second list past the length of the
first. -/
theorem zipWith_take_length {α β γ : Type} (f : α → β → γ) :
    ∀ (l1 : List α) (l2 : List β),
      List.zipWith f l1 (l2.take l1.length) = List.zipWith f l1 l2
  | [], _ => by simp
  | _ :: _, [] => by simp
  | a :: l1, b :: l2 => by simp [zipWith_take_length f l1 l2]

/-- When grouping is not active the current-group lookup returns nothing. -/
theorem grouping_false_no_group_col (o : AgGridOptions)
    (h : is_doing_grouping o = false) : get_row_group_column o = none := by
  unfold is_doing_grouping at h
  have hnil : o.rowGroupCols = [] := by
    cases hl : o.rowGroupCols with
    | nil => rfl
    | cons a l => rw [hl] at h; simp at h
  unfold get_row_group_column
  rw [hnil]
  simp

/-- C1 (counterexample): a grouped request (rowGroupCols non-empty) drilled
to leaf level yields `SELECT COUNT(*)`, not `SELECT COUNT(DISTINCT ...)`,
refuting the claim that every grouped request counts distinct group
values. -/
theorem c1_count_query_counterexample :
    is_doing_grouping qbLeafGrouped.opts = true ∧
    build_count_query qbLeafGrouped =
      "SELECT COUNT(*) FROM demo_data WHERE \"sector\" = 'Technology'" ∧
    ("SELECT COUNT(DISTINCT".data.isPrefixOf
      (build_count_query qbLeafGrouped).data) = false := by
  refine ⟨rfl, rfl, by decide⟩

/-- C1 (amended): the count query is `SELECT COUNT(DISTINCT <escaped
current group column>)` followed by the same WHERE clause as the main query
exactly when the current-group lookup returns a (truthy) column, i.e. when
`len(groupKeys) < len(rowGroupCols)`; every other request — non-grouped or
grouped at leaf level — yields `SELECT COUNT(*)` with the same WHERE
clause. -/
theorem c1_count_query_amended (qb : QueryBuilder) :
    build_count_query qb =
      match get_row_group_column qb.opts with
      | some group_col =>
        if colTruthy group_col then
          "SELECT COUNT(DISTINCT " ++ escape_column qb (colIdFirst group_col) ++
            ") FROM " ++ qb.table_name ++ create_where_sql qb
        else "SELECT COUNT(*) FROM " ++ qb.table_name ++ create_where_sql qb
      | none => "SELECT COUNT(*) FROM " ++ qb.table_name ++ create_where_sql qb := by
  unfold build_count_query
  cases hg : is_doing_grouping qb.opts with
  | false =>
    rw [grouping_false_no_group_col qb.opts hg]
    simp
  | true =>
    cases hc : get_row_group_column qb.opts with
    | none => simp
    | some gc => simp

/-- C2 (counterexample): a column name containing the configured quote
character is not safely delimited by `escape_column` — the embedded quote
is not doubled, so standard SQL lexing of the escaped identifier stops at
the embedded quote and leaves trailing text, instead of recovering the
whole name. -/
theorem c2_escape_column_counterexample :
    escape_column qbPlain "a\"b" = "\"a\"b\"" ∧
    readQuoted '"' (escape_column qbPlain "a\"b").data =
      some ("a".data, "b\"".data) ∧
    readQuoted '"' (escape_column qbPlain "a\"b").data ≠
      some ("a\"b".data, []) := by
  refine ⟨rfl, by decide, by decide⟩

/-- C2 (amended): `escape_column` merely wraps the column name in the quote
character without doubling embedded quote characters; the delimiting is
injection-safe only for names free of the quote character, for which
standard SQL lexing of the escaped identifier recovers the name exactly. -/
theorem c2_escape_column_amended (qb : QueryBuilder) (name : String)
    (hq : qb.escape_char = "\"")
    (hname : ∀ c ∈ name.data, c ≠ '"') :
    escape_column qb name = "\"" ++ name ++ "\"" ∧
    readQuoted '"' (escape_column qb name).data = some (name.data, []) := by
  constructor
  · simp [escape_column, hq]
  · have hdata : (escape_column qb name).data = '"' :: (name.data ++ ['"']) := by
      simp [escape_column, hq, string_data_append]
    rw [hdata]
    unfold readQuoted
    simp only [if_pos rfl]
    exact readQuotedAux_no_quote '"' name.data hname

/-- C2 (witness): the amended theorem at the default builder and the
column name `sector`. -/
theorem c2_escape_column_amended_witness :
    escape_column qbPlain "sector" = "\"sector\"" ∧
    readQuoted '"' (escape_column qbPlain "sector").data =
      some ("sector".data, []) := by
  have h := c2_escape_column_amended qbPlain "sector" rfl (by decide)
  exact ⟨h.1, h.2⟩

/-- C3: the pagination clause is ` LIMIT <page_size> OFFSET <startRow>`,
the page size is `endRow - startRow` (100 when either bound is missing),
the clause is omitted exactly when `startRow == 0 and endRow == 0`, and
`startRow=100, endRow=150` yields `LIMIT 50 OFFSET 100` (also at the end
of the full main query). -/
theorem c3_limit_clause :
    (∀ qb : QueryBuilder,
      create_limit_sql qb =
        if qb.opts.startRow = some 0 ∧ qb.opts.endRow = some 0 then ""
        else " LIMIT " ++ toString (page_size qb.opts) ++ " OFFSET " ++
          pyOptIntStr qb.opts.startRow) ∧
    (∀ o : AgGridOptions, page_size o =
        match o.startRow, o.endRow with
        | some s, some e => e - s
        | _, _ => 100) ∧
    (∀ qb : QueryBuilder,
      create_limit_sql qb = "" ↔
        qb.opts.startRow = some 0 ∧ qb.opts.endRow = some 0) ∧
    create_limit_sql qbPagination = " LIMIT 50 OFFSET 100" ∧
    build_query qbPagination = "SELECT * FROM demo_data LIMIT 50 OFFSET 100" := by
  have hne : ∀ x y : String, (" LIMIT " ++ x ++ " OFFSET " ++ y) ≠ "" := by
    intro x y h
    have h2 := congrArg String.data h
    rw [show (" LIMIT " ++ x ++ " OFFSET " ++ y).data =
        ' ' :: ("LIMIT " ++ x ++ " OFFSET " ++ y).data from rfl] at h2
    simp at h2
  have heq : ∀ qb : QueryBuilder,
      create_limit_sql qb =
        if qb.opts.startRow = some 0 ∧ qb.opts.endRow = some 0 then ""
        else " LIMIT " ++ toString (page_size qb.opts) ++ " OFFSET " ++
          pyOptIntStr qb.opts.startRow := by
    intro qb
    unfold create_limit_sql
    rcases h1 : qb.opts.startRow with _ | s <;>
      rcases h2 : qb.opts.endRow with _ | e <;>
      simp [pyIntEqZero, h1, h2]
  refine ⟨heq, fun _ => rfl, ?_, rfl, rfl⟩
  intro qb
  rw [heq qb]
  by_cases h : qb.opts.startRow = some 0 ∧ qb.opts.endRow = some 0
  · simp [h]
  · simp only [if_neg h]
    exact ⟨fun hx => absurd hx (hne _ _), fun hx => absurd hx h⟩

/-- C4: when grouping is active a sortModel entry contributes an `ORDER BY`
item exactly when its column id is in the whitelist (group columns already
applied or currently applying, plus value-column aggregation targets);
other entries are silently dropped, so the grouped request with
`valueCols=[revenue]` and `sortModel=[unrelated_col]` yields an empty
ORDER BY clause.  Without grouping every sortModel entry is emitted in
order. -/
theorem c4_order_by_whitelist :
    (∀ qb : QueryBuilder,
      create_order_by_sql qb =
        (let sort_parts :=
          if is_doing_grouping qb.opts then
            qb.opts.sortModel.filterMap (fun item =>
              if (allowed_sort_cols qb.opts).contains (sortColId item) then
                some (escape_column qb (sortColId item) ++ " " ++ sortDir item)
              else none)
          else
            qb.opts.sortModel.map (fun item =>
              escape_column qb (sortColId item) ++ " " ++ sortDir item)
        if sort_parts.isEmpty then ""
        else " ORDER BY " ++ String.intercalate ", " sort_parts)) ∧
    (∀ o : AgGridOptions, allowed_sort_cols o =
      (o.rowGroupCols.take (o.groupKeys.length + 1)).map colIdFirst ++
        o.valueCols.map colField) ∧
    is_doing_grouping qbSortWhitelist.opts = true ∧
    create_order_by_sql qbSortWhitelist = "" := by
  refine ⟨?_, fun _ => rfl, rfl, rfl⟩
  intro qb
  unfold create_order_by_sql
  cases h : qb.opts.sortModel with
  | nil => simp
  | cons a l => simp [h]

/-- C5: literal values are escaped by doubling single quotes and wrapping
in single quotes — decoding the resulting SQL string literal always
recovers the original value — and that is what the group-key conditions,
the text filters and the set filters emit; the text filter value
`O'Brien` appears in the generated SQL as the literal `'O''Brien'`. -/
theorem c5_literal_escaping :
    (∀ s : String,
      readQuoted '\'' ("'" ++ escape_single_quotes s ++ "'").data =
        some (s.data, [])) ∧
    (∀ qb : QueryBuilder, group_key_conditions qb =
      List.zipWith
        (fun col key => escape_column qb (colField col) ++ " = '" ++
          escape_single_quotes (pyStr key) ++ "'")
        qb.opts.rowGroupCols qb.opts.groupKeys) ∧
    (∀ (qb : QueryBuilder) (f v : String),
      build_text_filter qb f
          { filterType := some "text", type := some "equals", filterS := some v } =
        if v = "" then none
        else some (escape_column qb f ++ " = '" ++ escape_single_quotes v ++ "'")) ∧
    (∀ (qb : QueryBuilder) (f : String) (vs : List PyVal),
      build_set_filter qb f { filterType := some "set", values := some vs } =
        if vs.isEmpty then none
        else some (escape_column qb f ++ " IN ('" ++
          String.intercalate "', '"
            (vs.map (fun v => escape_single_quotes (pyStr v))) ++ "')")) ∧
    create_where_sql qbOBrien = " WHERE \"name\" = 'O''Brien'" := by
  refine ⟨?_, fun _ => rfl, ?_, ?_, rfl⟩
  · intro s
    have hdata : ("'" ++ escape_single_quotes s ++ "'").data =
        '\'' :: (doubleChar '\'' s.data ++ ['\'']) := by
      simp [escape_single_quotes, string_data_append]
    rw [hdata]
    unfold readQuoted
    simp only [if_pos rfl]
    exact readQuotedAux_doubleChar '\'' s.data
  · intro qb f v
    by_cases h : v = ""
    · subst h; rfl
    · simp only [if_neg h]
      unfold build_text_filter
      have hv : (v == "") = false := by
        simpa using h
      simp [hv]
  · intro qb f vs
    by_cases h : vs.isEmpty
    · unfold build_set_filter
      simp [h]
    · unfold build_set_filter
      simp [h]

/-- C6: the text-filter operator mapping — contains, equals, startsWith,
endsWith, notContains, blank, notBlank — each with its LIKE pattern or
NULL/empty test; an empty filter value under any operator other than
blank/notBlank yields no clause; and the `contains Corp` scenario emits
`"name" LIKE '%Corp%'`. -/
theorem c6_text_filter_mapping :
    (∀ (qb : QueryBuilder) (f v : String),
      build_text_filter qb f
          { filterType := some "text", type := some "contains", filterS := some v } =
        if v = "" then none
        else some (escape_column qb f ++ " LIKE '%" ++ escape_single_quotes v ++ "%'")) ∧
    (∀ (qb : QueryBuilder) (f v : String),
      build_text_filter qb f
          { filterType := some "text", type := some "equals", filterS := some v } =
        if v = "" then none
        else some (escape_column qb f ++ " = '" ++ escape_single_quotes v ++ "'")) ∧
    (∀ (qb : QueryBuilder) (f v : String),
      build_text_filter qb f
          { filterType := some "text", type := some "startsWith", filterS := some v } =
        if v = "" then none
        else some (escape_column qb f ++ " LIKE '" ++ escape_single_quotes v ++ "%'")) ∧
    (∀ (qb : QueryBuilder) (f v : String),
      build_text_filter qb f
          { filterType := some "text", type := some "endsWith", filterS := some v } =
        if v = "" then none
        else some (escape_column qb f ++ " LIKE '%" ++ escape_single_quotes v ++ "'")) ∧
    (∀ (qb : QueryBuilder) (f v : String),
      build_text_filter qb f
          { filterType := some "text", type := some "notContains", filterS := some v } =
        if v = "" then none
        else some (escape_column qb f ++ " NOT LIKE '%" ++
          escape_single_quotes v ++ "%'")) ∧
    (∀ (qb : QueryBuilder) (f v : String),
      build_text_filter qb f
          { filterType := some "text", type := some "blank", filterS := some v } =
        some (escape_column qb f ++ " IS NULL OR " ++ escape_column qb f ++ " = ''")) ∧
    (∀ (qb : QueryBuilder) (f v : String),
      build_text_filter qb f
          { filterType := some "text", type := some "notBlank", filterS := some v } =
        some (escape_column qb f ++ " IS NOT NULL AND " ++
          escape_column qb f ++ " != ''")) ∧
    (∀ (qb : QueryBuilder) (f t : String),
      build_text_filter qb f
          { filterType := some "text", type := some t, filterS := some "" } =
        if t = "notBlank" then
          some (escape_column qb f ++ " IS NOT NULL AND " ++
            escape_column qb f ++ " != ''")
        else if t = "blank" then
          some (escape_column qb f ++ " IS NULL OR " ++ escape_column qb f ++ " = ''")
        else none) ∧
    create_where_sql qbCorp = " WHERE \"name\" LIKE '%Corp%'" := by
  refine ⟨?_, ?_, ?_, ?_, ?_, fun _ _ _ => rfl, fun _ _ _ => rfl, ?_, rfl⟩
  all_goals
    first
    | (intro qb f v
       by_cases h : v = ""
       · subst h; rfl
       · have hv : (v == "") = false := by simpa using h
         unfold build_text_filter
         simp [hv])
    | (intro qb f t
       by_cases h1 : t = "notBlank"
       · subst h1; rfl
       · by_cases h2 : t = "blank"
         · subst h2; rfl
         · have hb1 : (t == "notBlank") = false := by simpa using h1
           have hb2 : (t == "blank") = false := by simpa using h2
           unfold build_text_filter
           simp [hb1, hb2, h1, h2])

/-- C7: the number-filter operator mapping — equals, greaterThan, lessThan,
greaterThanOrEqual, lessThanOrEqual map to the comparison operators,
inRange maps to `BETWEEN <filter> AND <filterTo>` (the bound defaulting to
the filter value when absent), blank/notBlank compare against 0 — and the
`inRange 10..20` scenario on `price` emits `"price" BETWEEN 10 AND 20`. -/
theorem c7_number_filter_mapping :
    (∀ (qb : QueryBuilder) (f : String) (a : Int),
      build_number_filter qb f
          { filterType := some "number", type := some "equals", filterN := some a } =
        some (escape_column qb f ++ " = " ++ toString a)) ∧
    (∀ (qb : QueryBuilder) (f : String) (a : Int),
      build_number_filter qb f
          { filterType := some "number", type := some "greaterThan",
            filterN := some a } =
        some (escape_column qb f ++ " > " ++ toString a)) ∧
    (∀ (qb : QueryBuilder) (f : String) (a : Int),
      build_number_filter qb f
          { filterType := some "number", type := some "lessThan",
            filterN := some a } =
        some (escape_column qb f ++ " < " ++ toString a)) ∧
    (∀ (qb : QueryBuilder) (f : String) (a : Int),
      build_number_filter qb f
          { filterType := some "number", type := some "greaterThanOrEqual",
            filterN := some a } =
        some (escape_column qb f ++ " >= " ++ toString a)) ∧
    (∀ (qb : QueryBuilder) (f : String) (a : Int),
      build_number_filter qb f
          { filterType := some "number", type := some "lessThanOrEqual",
            filterN := some a } =
        some (escape_column qb f ++ " <= " ++ toString a)) ∧
    (∀ (qb : QueryBuilder) (f : String) (a b : Int),
      build_number_filter qb f
          { filterType := some "number", type := some "inRange",
            filterN := some a, filterToN := some b } =
        some (escape_column qb f ++ " BETWEEN " ++ toString a ++ " AND " ++
          toString b)) ∧
    (∀ (qb : QueryBuilder) (f : String) (a : Int),
      build_number_filter qb f
          { filterType := some "number", type := some "inRange",
            filterN := some a } =
        some (escape_column qb f ++ " BETWEEN " ++ toString a ++ " AND " ++
          toString a)) ∧
    (∀ (qb : QueryBuilder) (f : String) (a : Int),
      build_number_filter qb f
          { filterType := some "number", type := some "blank", filterN := some a } =
        some (escape_column qb f ++ " IS NULL OR " ++ escape_column qb f ++ " = 0")) ∧
    (∀ (qb : QueryBuilder) (f : String) (a : Int),
      build_number_filter qb f
          { filterType := some "number", type := some "notBlank",
            filterN := some a } =
        some (escape_column qb f ++ " IS NOT NULL AND " ++
          escape_column qb f ++ " != 0")) ∧
    create_where_sql qbPriceRange = " WHERE \"price\" BETWEEN 10 AND 20" := by
  exact ⟨fun _ _ _ => rfl, fun _ _ _ => rfl, fun _ _ _ => rfl, fun _ _ _ => rfl,
    fun _ _ _ => rfl, fun _ _ _ _ => rfl, fun _ _ _ => rfl, fun _ _ _ => rfl,
    fun _ _ _ => rfl, rfl⟩

/-- C8: for a grouped request with a (truthy) current group column, the
SELECT clause selects the escaped current group column plus one
`<aggFunc>(<escaped field>) as <escaped field>` item per value column — an
unsupported aggFunc silently replaced by `sum` — and appends
`count(*) as "count"` when `valueCols` is empty. -/
theorem c8_grouped_select (qb : QueryBuilder) (gc : ColDef)
    (hg : is_doing_grouping qb.opts = true)
    (hc : get_row_group_column qb.opts = some gc)
    (ht : colTruthy gc = true) :
    create_select_sql qb =
      "SELECT " ++ String.intercalate ", "
        (escape_column qb (colIdFirst gc) ::
          (qb.opts.valueCols.map (agg_select qb) ++
            (if qb.opts.valueCols.isEmpty then ["count(*) as \"count\""] else []))) ++
      " FROM " ++ qb.table_name ∧
    (∀ vc : ColDef, agg_select qb vc =
      (if SUPPORTED_AGG_FUNCTIONS.contains (vc.aggFunc.getD "sum") then
        vc.aggFunc.getD "sum" else "sum") ++ "(" ++
        escape_column qb (colField vc) ++ ") as " ++ escape_column qb (colField vc)) := by
  refine ⟨?_, fun _ => rfl⟩
  unfold create_select_sql
  rw [hg, hc]
  cases hv : qb.opts.valueCols with
  | nil => simp [ht, hv]
  | cons a l => simp [ht, hv]

/-- C8 (witness): the amended-free theorem at a grouped request whose value
column carries the unsupported aggregation function `median`, which is
replaced by `sum`. -/
theorem c8_grouped_select_witness :
    create_select_sql qbAggMedian =
      "SELECT \"sector\", sum(\"revenue\") as \"revenue\" FROM demo_data" := by
  have h := c8_grouped_select qbAggMedian { id := some "sector" } rfl rfl rfl
  exact h.1

/-- C9: a request whose groupKeys is strictly longer than rowGroupCols
raises no error — the current-group lookup returns none, the builder falls
back to leaf-row behaviour (plain `SELECT * FROM <table>`, no GROUP BY),
and the WHERE clause uses only the group keys whose index is within
rowGroupCols (extra keys are ignored). -/
theorem c9_excess_group_keys (qb : QueryBuilder)
    (h : qb.opts.rowGroupCols.length < qb.opts.groupKeys.length) :
    get_row_group_column qb.opts = none ∧
    create_group_by_sql qb = "" ∧
    (is_doing_grouping qb.opts = true →
      create_select_sql qb = "SELECT * FROM " ++ qb.table_name) ∧
    create_where_sql qb =
      create_where_sql { qb with opts := { qb.opts with
        groupKeys := qb.opts.groupKeys.take qb.opts.rowGroupCols.length } } := by
  have hnone : get_row_group_column qb.opts = none := by
    unfold get_row_group_column
    have hlt : ¬ (qb.opts.groupKeys.length < qb.opts.rowGroupCols.length) := by
      omega
    simp [hlt]
  have hz : group_key_conditions { qb with opts := { qb.opts with
      groupKeys := qb.opts.groupKeys.take qb.opts.rowGroupCols.length } } =
      group_key_conditions qb := by
    unfold group_key_conditions
    exact zipWith_take_length _ qb.opts.rowGroupCols qb.opts.groupKeys
  refine ⟨hnone, ?_, ?_, ?_⟩
  · unfold create_group_by_sql
    cases hg : is_doing_grouping qb.opts with
    | false => simp
    | true => rw [hnone]; simp
  · intro hg
    unfold create_select_sql
    rw [hg, hnone]
    simp
  · unfold create_where_sql
    rw [hz]
    rfl

/-- C9 (witness): the theorem at a request with one group column and two
group keys. -/
theorem c9_excess_group_keys_witness :
    get_row_group_column qbDrillPast.opts = none ∧
    create_group_by_sql qbDrillPast = "" ∧
    create_select_sql qbDrillPast = "SELECT * FROM demo_data" ∧
    create_where_sql qbDrillPast = " WHERE \"sector\" = 'Tech'" := by
  have h := c9_excess_group_keys qbDrillPast (by decide)
  refine ⟨h.1, h.2.1, h.2.2.1 rfl, ?_⟩
  rw [h.2.2.2]
  rfl

/-- C10: a request with an explicit null startRow still emits the LIMIT
clause — `None == 0` is false — and the raw value is interpolated,
producing the text ` LIMIT 100 OFFSET None`, which is not a syntactically
valid LIMIT/OFFSET clause. -/
theorem c10_none_start_row (qb : QueryBuilder)
    (h : qb.opts.startRow = none) :
    create_limit_sql qb = " LIMIT 100 OFFSET None" ∧
    isValidLimitOffset (create_limit_sql qb) = false := by
  have h1 : create_limit_sql qb = " LIMIT 100 OFFSET None" := by
    unfold create_limit_sql page_size
    rw [h]
    cases he : qb.opts.endRow <;> simp [pyIntEqZero, pyOptIntStr] <;> rfl
  refine ⟨h1, ?_⟩
  rw [h1]
  rfl

/-- C10 (witness): the theorem at the request with `startRow = null`. -/
theorem c10_none_start_row_witness :
    create_limit_sql qbNoneStart = " LIMIT 100 OFFSET None" ∧
    isValidLimitOffset (create_limit_sql qbNoneStart) = false := by
  exact c10_none_start_row qbNoneStart rfl
